import Mathlib

/-!
Verification of the lmserver gateway (files `lmserver/config.py`,
`lmserver/proxy.py`, `lmserver/main.py`) against its specification.

The Python code is shallowly embedded: each HTTP interaction with the
backend is represented by an explicit outcome value (the response, or the
kind of failure), and each Python function becomes a Lean function from
that outcome to its result.  Exceptions become `Except`/explicit error
constructors; the `async with semaphore` blocks become event traces and a
labelled transition system over a gate state.
-/

/-! ## JSON values

A minimal JSON value type: `response.json()` results and the dictionaries
built by the Python code are represented as `Jval`. -/

inductive Jval where
  | str (s : String)
  | num (n : Int)
  | bool (b : Bool)
  | null
  | arr (xs : List Jval)
  | obj (fields : List (String × Jval))

/-- Field lookup in a JSON object's field list (Python `dict[key]`). -/
def jfieldGet : List (String × Jval) → String → Option Jval
  | [], _ => none
  | (k, v) :: rest, key => if k = key then some v else jfieldGet rest key

/-- `d.get(key)` on a `Jval.obj`; `none` on any other shape. -/
def Jval.getField : Jval → String → Option Jval
  | .obj fields, key => jfieldGet fields key
  | _, _ => none

/-! ## Configuration (`lmserver/config.py`)

`Settings` is loaded once from the environment at startup and is read-only
afterwards, so it is embedded as a plain structure parameter.  The field
defaults are the `Field(default=...)` values of `config.py`. -/

structure Settings where
  host : String := "0.0.0.0"
  port : Nat := 8000
  llama_server_url : String := "http://127.0.0.1:8080"
  max_concurrent_requests : Nat := 4
  request_timeout_seconds : Nat := 300
  default_model : String := "gpt-oss-20b"

/-- The settings object with every field at its `config.py` default. -/
def defaultSettings : Settings := {}

/-! ## Python exceptions

The exception values that can cross the functions under study.
`httpStatusError` embeds `httpx.HTTPStatusError` as raised by
`response.raise_for_status()`: it carries the backend's status code and the
response body (reachable via `e.response`), plus the request URL.
`jsonDecodeError` embeds the `json.JSONDecodeError` raised by
`response.json()` on a body that is not valid JSON; it is NOT a subclass of
`httpx.RequestError`, so `except httpx.RequestError` does not catch it.
`cancelledError` embeds `asyncio.CancelledError`, which derives from
`BaseException` and is not caught by `except Exception`. -/

inductive PyErr where
  | httpStatusError (code : Nat) (body : String) (url : String)
  | requestError (msg : String)
  | jsonDecodeError
  | cancelledError

/-- Modelled from httpx (a dependency, outside `src/`): the reason phrase
httpx attaches to a status code, for the codes used in this development. -/
def reasonPhrase (code : Nat) : String :=
  if code = 500 then "Internal Server Error"
  else if code = 502 then "Bad Gateway"
  else if code = 404 then "Not Found"
  else if code = 400 then "Bad Request"
  else ""

/-- Modelled from httpx (a dependency, outside `src/`): `str(e)` for an
`httpx.HTTPStatusError` is the message built by `raise_for_status`, namely
`"Client error ... "` / `"Server error '<code> <reason>' for url '<url>'"`
followed by a `httpstatuses.com` pointer line.  The response body is kept
on the exception object but is not part of the message.  For an
`httpx.RequestError`, `str(e)` is the underlying error message. -/
def strOfErr : PyErr → String
  | .httpStatusError code _ url =>
      (if 400 ≤ code ∧ code < 500 then "Client error" else "Server error")
        ++ " '" ++ toString code ++ " " ++ reasonPhrase code
        ++ "' for url '" ++ url
        ++ "'\nFor more information check: https://httpstatuses.com/"
        ++ toString code
  | .requestError msg => msg
  | .jsonDecodeError => "Expecting value: line 1 column 1 (char 0)"
  | .cancelledError => ""

/-! ## Backend interactions

Each backend HTTP call is represented by its outcome.  A reached backend
answers with a status code and a body; the body is carried as the result of
JSON parsing (`some j` when `response.json()` would succeed with `j`,
`none` when it would raise).  A network/connect failure is an
`httpx.RequestError` with a message. -/

inductive BackendAnswer where
  | resp (status : Nat) (body : Option Jval)
  | netError (msg : String)

namespace LlamaServerProxy

/-- The URL `proxy.chat_completions` posts to. -/
def chatUrl (st : Settings) : String :=
  st.llama_server_url ++ "/v1/chat/completions"

/-- Embeds `LlamaServerProxy.health_check` (proxy.py lines 34-41):
GET `{base_url}/health`; on any reply, return
`\x7b"status": "ok", "llama_server": response.json()\x7d` — note no
`raise_for_status`, so an HTTP error status still takes this path; on
`httpx.RequestError`, return `\x7b"status": "error", "error": str(e)\x7d`.
`response.json()` on an unparseable body raises `jsonDecodeError`, which
the `except httpx.RequestError` clause does not catch, so it escapes. -/
def health_check (a : BackendAnswer) : Except PyErr Jval :=
  match a with
  | .resp _ (some j) => .ok (.obj [("status", .str "ok"), ("llama_server", j)])
  | .resp _ none => .error .jsonDecodeError
  | .netError msg => .ok (.obj [("status", .str "error"), ("error", .str msg)])

/-- The single synthetic model entry of the `list_models` fallback
(proxy.py lines 119-123). -/
def modelEntry (st : Settings) : Jval :=
  .obj [("id", .str st.default_model),
        ("object", .str "model"),
        ("owned_by", .str "local")]

/-- The fallback payload `list_models` builds when the backend is
unreachable (proxy.py lines 116-125): a list object whose `"data"` holds
exactly the one synthetic entry. -/
def modelsFallback (st : Settings) : Jval :=
  .obj [("object", .str "list"), ("data", .arr [modelEntry st])]

/-- Embeds `LlamaServerProxy.list_models` (proxy.py lines 108-125):
GET `{base_url}/v1/models`, return `response.json()`; on
`httpx.RequestError`, return the fallback payload naming the configured
default model.  As in `health_check`, an unparseable body raises. -/
def list_models (st : Settings) (a : BackendAnswer) : Except PyErr Jval :=
  match a with
  | .resp _ (some j) => .ok j
  | .resp _ none => .error .jsonDecodeError
  | .netError _ => .ok (modelsFallback st)

end LlamaServerProxy

/-! ## Gate events and call traces

The observable actions a single proxied call performs on the admission gate
and the backend, in order.  `acquire`/`release` are the semaphore
operations performed by entering and leaving `async with semaphore:`.
Python guarantees that leaving the block — by normal fall-through, by an
exception propagating out, or by `GeneratorExit`/`CancelledError` injected
at an `await` or `yield` inside it — runs `__aexit__`, i.e. exactly one
`release` per successful `acquire`. -/

inductive Event where
  | acquire
  | release
  | backendCall (path : String)
  | openStream (path : String)
  | yieldChunk (chunk : List Nat)
deriving DecidableEq, Repr

/-- Outcome of the guarded backend POST of the unary
`proxy.chat_completions`: the backend replied with JSON and a success
status; or `raise_for_status` raised on an error status (the exception
carries the body); or the connection failed; or the calling task was
cancelled while awaiting the backend. -/
inductive UnaryOutcome where
  | success (j : Jval)
  | httpError (code : Nat) (body : String)
  | netError (msg : String)
  | cancelled

/-- Embeds the result of `LlamaServerProxy.chat_completions` (proxy.py
lines 43-79): POST the body, `raise_for_status`, return `response.json()`;
both `except` clauses log and re-raise, so every failure propagates to the
caller unchanged. -/
def LlamaServerProxy.chatResult (st : Settings) (o : UnaryOutcome) :
    Except PyErr Jval :=
  match o with
  | .success j => .ok j
  | .httpError code body =>
      .error (.httpStatusError code body (LlamaServerProxy.chatUrl st))
  | .netError msg => .error (.requestError msg)
  | .cancelled => .error .cancelledError

/-- The gate/backend event trace of one unary `proxy.chat_completions`
call (proxy.py lines 49-79): `async with semaphore:` acquires, the POST is
issued, and the block exit releases — on success, on either `except`
re-raise, and on cancellation alike. -/
def LlamaServerProxy.chatEvents (st : Settings) (_ : UnaryOutcome) :
    List Event :=
  [.acquire, .backendCall (LlamaServerProxy.chatUrl st), .release]

/-- Outcome of the guarded streaming call of
`proxy.chat_completions_stream`: the backend stream was read to the end
(`exhausted`, with the chunk sequence `aiter_bytes` delivered); or
`raise_for_status` raised before any chunk (`httpError`); or the transport
failed after delivering a prefix of chunks (`netError`); or the consumer
stopped pulling the generator after a prefix of chunks
(`consumerStopped` — generator finalisation injects `GeneratorExit` at the
`yield`). -/
inductive StreamOutcome where
  | exhausted (chunks : List (List Nat))
  | httpError (code : Nat) (body : String)
  | netError (delivered : List (List Nat)) (msg : String)
  | consumerStopped (delivered : List (List Nat))

/-- The chunks `response.aiter_bytes()` delivered to the generator body
before the stream ended, failed, or was abandoned. -/
def StreamOutcome.received : StreamOutcome → List (List Nat)
  | .exhausted chunks => chunks
  | .httpError _ _ => []
  | .netError delivered _ => delivered
  | .consumerStopped delivered => delivered

/-- The gate/backend event trace of one `proxy.chat_completions_stream`
call (proxy.py lines 81-106): `async with semaphore:` acquires first, the
stream is opened while the permit is held, each received chunk is yielded
unchanged (`async for chunk in response.aiter_bytes(): yield chunk`), and
the permit is released only when control leaves the block — after
exhaustion, after a re-raised error, or on generator finalisation. -/
def LlamaServerProxy.streamEvents (st : Settings) (o : StreamOutcome) :
    List Event :=
  .acquire :: .openStream (LlamaServerProxy.chatUrl st) ::
    ((o.received.map Event.yieldChunk) ++ [.release])

/-- The chunk carried by a `yieldChunk` event, if any. -/
def chunkOf : Event → Option (List Nat)
  | .yieldChunk c => some c
  | _ => none

/-- The byte chunks a consumer of `chat_completions_stream` receives: the
`yieldChunk` events of the trace, in order. -/
def LlamaServerProxy.yieldedChunks (st : Settings) (o : StreamOutcome) :
    List (List Nat) :=
  (LlamaServerProxy.streamEvents st o).filterMap chunkOf

/-! ## Semaphore accounting over traces

`applyEvent` is the effect of one trace event on the semaphore's
available-slot count (`asyncio.Semaphore._value`); the other events do not
touch the gate. -/

def applyEvent (n : Nat) (e : Event) : Nat :=
  match e with
  | .acquire => n - 1
  | .release => n + 1
  | _ => n

/-- Run a trace over an available-slot count. -/
def runEvents (n : Nat) (es : List Event) : Nat := es.foldl applyEvent n

/-- One finished chat-completion request of either shape. -/
inductive ChatCall where
  | unary (o : UnaryOutcome)
  | stream (o : StreamOutcome)

/-- The trace of a finished call of either shape. -/
def ChatCall.events (st : Settings) : ChatCall → List Event
  | .unary o => LlamaServerProxy.chatEvents st o
  | .stream o => LlamaServerProxy.streamEvents st o

/-- Available-slot count after a batch of calls has finished, one after
another, starting from `n` slots. -/
def runBatch (st : Settings) (n : Nat) (batch : List ChatCall) : Nat :=
  batch.foldl (fun m call => runEvents m (call.events st)) n

/-! ## Inbound endpoint layer (`lmserver/main.py`) -/

/-- The fields of `ChatCompletionRequest` (main.py lines 90-99) that the
gateway inspects; `messages` and the extra passthrough fields are carried
opaquely as `rest` since the gateway forwards them untouched. -/
structure ChatCompletionRequest where
  model : Option String := none
  stream : Bool := false
  rest : List (String × Jval) := []

/-- Embeds the Python truthiness test `not request_body.get("model")`
(main.py line 113) after `model_dump(exclude_none=True)`: the key is
absent when the field was `None`, and an empty string is falsy. -/
def modelIsFalsy : Option String → Bool
  | none => true
  | some s => s = ""

/-- Embeds main.py lines 109-114: the model field of the request body
forwarded to the backend — the configured default when `model` is absent
or falsy, the caller's value otherwise. -/
def forwardedModel (st : Settings) (m : Option String) : String :=
  if modelIsFalsy m then st.default_model
  else m.getD ""

/-- Result of the inbound `POST /v1/chat/completions` handler: a JSON
response, a streaming response wrapping the proxy generator, an
`HTTPException` (status code and detail), or propagation of a
cancellation (not caught by `except Exception`). -/
inductive EndpointResult where
  | ok (j : Jval)
  | streamingResponse (mediaType : String)
  | httpError (status : Nat) (detail : String)
  | cancelled

/-- Embeds the `chat_completions` endpoint (main.py lines 102-130) for a
non-streaming request: await the proxy call; any `Exception` it raises is
mapped to `HTTPException(status_code=502, detail="Backend error: " +
str(e))`; `asyncio.CancelledError` is a `BaseException` and propagates. -/
def chatCompletionsEndpoint (st : Settings) (o : UnaryOutcome) :
    EndpointResult :=
  match LlamaServerProxy.chatResult st o with
  | .ok j => .ok j
  | .error .cancelledError => .cancelled
  | .error e => .httpError 502 ("Backend error: " ++ strOfErr e)

/-- Embeds the `health` endpoint (main.py lines 54-65) on the outcomes for
which `proxy.health_check` returns: the backend result is nested under
`"backend"` inside a dict whose own `"status"` is the literal `"ok"`.  When
`health_check` raises (unparseable body), the exception propagates and no
payload is built, so this function is partial over `BackendAnswer` only
through `health_check`'s own `Except`. -/
def healthEndpoint (st : Settings) (a : BackendAnswer) : Except PyErr Jval :=
  match LlamaServerProxy.health_check a with
  | .ok backendHealth =>
      .ok (.obj [("status", .str "ok"),
                 ("backend", backendHealth),
                 ("config", .obj [("max_concurrent_requests",
                                    .num st.max_concurrent_requests),
                                   ("default_model", .str st.default_model)])])
  | .error e => .error e

/-- The gate/backend event trace of the `proxy_fallback` handler (main.py
lines 163-186): it forwards the request to
`{llama_server_url}/v1/{path}` directly with a fresh `httpx.AsyncClient` —
no `get_semaphore()` call, no `async with semaphore:`, hence no `acquire`
or `release` event. -/
def proxyFallbackEvents (st : Settings) (path : String) : List Event :=
  [.backendCall (st.llama_server_url ++ "/v1/" ++ path)]

/-- Modelled from the spec: the backend paths that perform model inference.
§2 requires every inference call to hold a permit; chat completions is the
gated path, and `/v1/completions` and `/v1/embeddings` are the inference
endpoints the `proxy_fallback` docstring itself names as passthrough
targets ("Passes through requests like /v1/embeddings, /v1/completions"). -/
def inferencePaths (st : Settings) : List String :=
  [st.llama_server_url ++ "/v1/chat/completions",
   st.llama_server_url ++ "/v1/completions",
   st.llama_server_url ++ "/v1/embeddings"]

/-! ## The admission gate as a transition system

`get_semaphore` (proxy.py lines 18-24) creates one process-wide
`asyncio.Semaphore(settings.max_concurrent_requests)`, shared by the unary
and the streaming chat path.  A gate state counts the tasks waiting in
`acquire` (`queued`), the tasks between a successful `acquire` and its
`release` (`inFlight`, the permit holders whose backend call is running),
and the available slots (`sem`, the semaphore's `_value`). -/

structure GateState where
  sem : Nat
  queued : Nat
  inFlight : Nat
deriving DecidableEq, Repr

/-- The transitions a request task can take on the shared gate. -/
inductive GateLabel where
  | arrive
  | grant
  | finish
  | abandon
deriving DecidableEq, Repr

/-- Small-step semantics of the gate.  `arrive`: a new request task enters
`acquire`.  `grant`: `asyncio.Semaphore.acquire` succeeds — only possible
when a slot is free — and the task's backend call starts.  `finish`: an
in-flight task leaves `async with semaphore:` on any path (success, error,
cancellation) and releases its slot.  `abandon`: a task cancelled while
still waiting in `acquire` leaves the queue without consuming a slot. -/
inductive GateStep : GateLabel → GateState → GateState → Prop where
  | arrive (s : GateState) :
      GateStep .arrive s { s with queued := s.queued + 1 }
  | grant (s : GateState) (hsem : 0 < s.sem) (hq : 0 < s.queued) :
      GateStep .grant s
        { sem := s.sem - 1, queued := s.queued - 1,
          inFlight := s.inFlight + 1 }
  | finish (s : GateState) (hf : 0 < s.inFlight) :
      GateStep .finish s
        { sem := s.sem + 1, queued := s.queued,
          inFlight := s.inFlight - 1 }
  | abandon (s : GateState) (hq : 0 < s.queued) :
      GateStep .abandon s { s with queued := s.queued - 1 }

/-- The gate state right after `get_semaphore` first runs: all `N`
configured slots free, nobody waiting, nobody in flight. -/
def initGate (N : Nat) : GateState := ⟨N, 0, 0⟩

/-- States reachable from the initial gate state by request traffic. -/
inductive GateReachable (N : Nat) : GateState → Prop where
  | init : GateReachable N (initGate N)
  | step {s s' : GateState} {l : GateLabel} :
      GateReachable N s → GateStep l s s' → GateReachable N s'

/-! ## String containment helper (for the error-detail claims) -/

/-- `pat` occurs at the start of `s` (on character lists). -/
def charPrefix : List Char → List Char → Bool
  | [], _ => true
  | _ :: _, [] => false
  | a :: as, b :: bs => a = b && charPrefix as bs

/-- `pat` occurs somewhere inside `s` (on character lists). -/
def charSub (pat : List Char) : List Char → Bool
  | [] => charPrefix pat []
  | s@(_ :: rest) => charPrefix pat s || charSub pat rest

/-- `pat` is a substring of `s`. -/
def strContains (s pat : String) : Bool := charSub pat.data s.data

/-! ## Helper lemmas -/

/-- Gate invariant: from the initial state, available slots plus permit
holders always equal the configured capacity. -/
theorem gate_sem_add_inFlight {N : Nat} {s : GateState}
    (h : GateReachable N s) : s.sem + s.inFlight = N := by
  induction h with
  | init => simp [initGate]
  | step _ hst ih =>
      cases hst with
      | arrive t => exact ih
      | grant t hsem hq => simp only [] at ih ⊢; omega
      | finish t hf => simp only [] at ih ⊢; omega
      | abandon t hq => exact ih

/-- A trace of pure chunk yields does not move the slot count. -/
theorem runEvents_yieldChunks : ∀ (cs : List (List Nat)) (n : Nat),
    runEvents n (cs.map Event.yieldChunk) = n
  | [], _ => rfl
  | _ :: rest, n => runEvents_yieldChunks rest n

/-- A finished call of either shape restores the slot count it started
from, provided a slot was available for its `acquire`. -/
theorem runEvents_call (st : Settings) (call : ChatCall) {n : Nat}
    (h : 0 < n) : runEvents n (call.events st) = n := by
  cases call with
  | unary o =>
      show n - 1 + 1 = n
      omega
  | stream o =>
      show List.foldl applyEvent (n - 1)
        (o.received.map Event.yieldChunk ++ [Event.release]) = n
      rw [List.foldl_append]
      have h1 := runEvents_yieldChunks o.received (n - 1)
      rw [runEvents] at h1
      rw [h1]
      show n - 1 + 1 = n
      omega

/-- Sequentially finishing any batch of calls leaves the slot count at the
capacity it started from. -/
theorem runBatch_restores (st : Settings) {c : Nat} (h : 0 < c) :
    ∀ batch : List ChatCall, runBatch st c batch = c := by
  intro batch
  induction batch with
  | nil => rfl
  | cons call rest ih =>
      show runBatch st (runEvents c (call.events st)) rest = c
      rw [runEvents_call st call h]
      exact ih

/-- Chunk-yield events are neither `acquire` nor `release`. -/
theorem count_yieldChunks_eq_zero (cs : List (List Nat)) (e : Event)
    (h : ∀ c, e ≠ Event.yieldChunk c) :
    (cs.map Event.yieldChunk).count e = 0 := by
  induction cs with
  | nil => rfl
  | cons c rest ih =>
      rw [List.map_cons, List.count_cons, ih]
      have hne : (Event.yieldChunk c == e) = false := by
        cases e <;> simp_all
      simp [hne]

/-- `filterMap chunkOf` undoes `map yieldChunk`. -/
theorem filterMap_chunkOf_map (cs : List (List Nat)) :
    (cs.map Event.yieldChunk).filterMap chunkOf = cs := by
  induction cs with
  | nil => rfl
  | cons c rest ih => simp [List.filterMap_cons, chunkOf, ih]

/-! ## Claim theorems -/

/-- C1: for every configured max concurrency `N` (positive, fixed at
startup), at most `N` chat-completion backend calls — unary and streaming
share the one semaphore `get_semaphore` returns — hold a permit (`InFlight`)
simultaneously in every reachable gate state; and whenever `N` calls are in
flight, no waiting call can be let through (no `grant` step exists), so it
stays queued in `acquire` until a `finish` step releases a slot. -/
theorem C1_bounded_concurrency (N : Nat) (hN : 0 < N) (s : GateState)
    (h : GateReachable N s) :
    s.inFlight ≤ N ∧
      (s.inFlight = N → ∀ s2, ¬ GateStep GateLabel.grant s s2) := by
  have hinv := gate_sem_add_inFlight h
  refine ⟨by omega, ?_⟩
  intro hfull s2 hstep
  cases hstep with
  | grant t hsem hq => omega

/-- Witness for C1 at capacity 1: the state with one call in flight is
reachable, the bound holds there, and no admission step exists. -/
theorem C1_bounded_concurrency_witness :
    0 < 1 ∧ GateReachable 1 ⟨0, 0, 1⟩ ∧
      ((⟨0, 0, 1⟩ : GateState).inFlight ≤ 1 ∧
        ((⟨0, 0, 1⟩ : GateState).inFlight = 1 →
          ∀ s2, ¬ GateStep GateLabel.grant ⟨0, 0, 1⟩ s2)) := by
  have hreach : GateReachable 1 ⟨0, 0, 1⟩ := by
    have h1 : GateReachable 1 ⟨1, 0, 0⟩ := GateReachable.init
    have h2 : GateReachable 1 ⟨1, 1, 0⟩ :=
      GateReachable.step h1 (GateStep.arrive ⟨1, 0, 0⟩)
    exact GateReachable.step h2
      (GateStep.grant ⟨1, 1, 0⟩ (by decide) (by decide))
  exact ⟨by decide, hreach,
    C1_bounded_concurrency 1 (by decide) ⟨0, 0, 1⟩ hreach⟩

/-- C2: every finished chat-completion call (unary or streaming) performs
exactly one `acquire` and exactly one `release`, whatever its outcome —
success, backend HTTP error, network error, or cancellation — and a batch
of finished requests leaves the available-slot count at the configured
capacity. -/
theorem C2_release_matches_acquire (st : Settings) (c : Nat) (h : 0 < c)
    (batch : List ChatCall) :
    (∀ call : ChatCall,
        (call.events st).count Event.acquire = 1 ∧
          (call.events st).count Event.release = 1) ∧
      runBatch st c batch = c := by
  refine ⟨?_, runBatch_restores st h batch⟩
  intro call
  cases call with
  | unary o => exact ⟨rfl, rfl⟩
  | stream o =>
      have hacq : (∀ ch, Event.acquire ≠ Event.yieldChunk ch) := by
        intro ch hc
        cases hc
      have hrel : (∀ ch, Event.release ≠ Event.yieldChunk ch) := by
        intro ch hc
        cases hc
      constructor
      · show (Event.acquire ::
            Event.openStream (LlamaServerProxy.chatUrl st) ::
            (o.received.map Event.yieldChunk ++ [Event.release])).count
            Event.acquire = 1
        rw [List.count_cons, List.count_cons, List.count_append,
          count_yieldChunks_eq_zero o.received Event.acquire hacq]
        simp
      · show (Event.acquire ::
            Event.openStream (LlamaServerProxy.chatUrl st) ::
            (o.received.map Event.yieldChunk ++ [Event.release])).count
            Event.release = 1
        rw [List.count_cons, List.count_cons, List.count_append,
          count_yieldChunks_eq_zero o.received Event.release hrel]
        simp

/-- Witness for C2 at the default capacity 4 with a mixed batch covering
all four exit kinds. -/
theorem C2_release_matches_acquire_witness :
    0 < 4 ∧
      ((∀ call : ChatCall,
          (call.events defaultSettings).count Event.acquire = 1 ∧
            (call.events defaultSettings).count Event.release = 1) ∧
        runBatch defaultSettings 4
          [ChatCall.unary (.success .null),
           ChatCall.unary (.httpError 500 "oom"),
           ChatCall.stream (.consumerStopped [[100, 101]]),
           ChatCall.unary .cancelled,
           ChatCall.stream (.netError [[102]] "reset")] = 4) :=
  ⟨by decide,
    C2_release_matches_acquire defaultSettings 4 (by decide)
      [ChatCall.unary (.success .null),
       ChatCall.unary (.httpError 500 "oom"),
       ChatCall.stream (.consumerStopped [[100, 101]]),
       ChatCall.unary .cancelled,
       ChatCall.stream (.netError [[102]] "reset")]⟩

/-- C3: for every streaming call outcome, the permit is acquired first
(before the backend stream is opened: the trace starts `acquire` then
`openStream`), is released exactly once, and the release is the very last
event of the trace — after every yielded chunk, whether the stream was
exhausted, the backend errored, or the consumer stopped — and never occurs
anywhere earlier in the trace. -/
theorem C3_permit_spans_stream (st : Settings) (o : StreamOutcome) :
    (LlamaServerProxy.streamEvents st o).head? = some Event.acquire ∧
      (LlamaServerProxy.streamEvents st o).tail.head? =
        some (Event.openStream (LlamaServerProxy.chatUrl st)) ∧
      (LlamaServerProxy.streamEvents st o).count Event.release = 1 ∧
      (LlamaServerProxy.streamEvents st o).getLast? = some Event.release ∧
      Event.release ∉ (LlamaServerProxy.streamEvents st o).dropLast := by
  refine ⟨rfl, rfl, ?_, ?_, ?_⟩
  · have hrel : (∀ ch, Event.release ≠ Event.yieldChunk ch) := by
      intro ch hc
      cases hc
    show (Event.acquire ::
        Event.openStream (LlamaServerProxy.chatUrl st) ::
        (o.received.map Event.yieldChunk ++ [Event.release])).count
        Event.release = 1
    rw [List.count_cons, List.count_cons, List.count_append,
      count_yieldChunks_eq_zero o.received Event.release hrel]
    simp
  · show (Event.acquire ::
        Event.openStream (LlamaServerProxy.chatUrl st) ::
        (o.received.map Event.yieldChunk ++ [Event.release])).getLast? =
        some Event.release
    have h1 : Event.acquire ::
        Event.openStream (LlamaServerProxy.chatUrl st) ::
        (o.received.map Event.yieldChunk ++ [Event.release]) =
        (Event.acquire ::
          Event.openStream (LlamaServerProxy.chatUrl st) ::
          o.received.map Event.yieldChunk) ++ [Event.release] := by
      simp
    rw [h1, List.getLast?_concat]
  · show Event.release ∉ (Event.acquire ::
        Event.openStream (LlamaServerProxy.chatUrl st) ::
        (o.received.map Event.yieldChunk ++ [Event.release])).dropLast
    have h1 : Event.acquire ::
        Event.openStream (LlamaServerProxy.chatUrl st) ::
        (o.received.map Event.yieldChunk ++ [Event.release]) =
        (Event.acquire ::
          Event.openStream (LlamaServerProxy.chatUrl st) ::
          o.received.map Event.yieldChunk) ++ [Event.release] := by
      simp
    rw [h1, List.dropLast_concat]
    simp

/-- C9: for every backend stream outcome, the chunk sequence the consumer
receives from `chat_completions_stream` is exactly the chunk sequence the
backend delivered, in order and unmodified, so the concatenations of the
two byte sequences coincide. -/
theorem C9_chunks_pass_through (st : Settings) (o : StreamOutcome) :
    LlamaServerProxy.yieldedChunks st o = o.received ∧
      (LlamaServerProxy.yieldedChunks st o).flatten = o.received.flatten := by
  have h : LlamaServerProxy.yieldedChunks st o = o.received := by
    show ((Event.acquire ::
        Event.openStream (LlamaServerProxy.chatUrl st) ::
        (o.received.map Event.yieldChunk ++ [Event.release]))).filterMap
        chunkOf = o.received
    rw [List.filterMap_cons, List.filterMap_cons, List.filterMap_append]
    show (o.received.map Event.yieldChunk).filterMap chunkOf ++ [] =
      o.received
    rw [filterMap_chunkOf_map, List.append_nil]
  exact ⟨h, by rw [h]⟩

/-- C4 counterexample: the `proxy_fallback` route forwards a POST to the
backend's `/v1/completions` — an inference endpoint its own docstring names
— and its trace contains no `acquire` (and no `release`) event: an
inference request reaches the backend without a gate permit. -/
theorem C4_counterexample :
    (defaultSettings.llama_server_url ++ "/v1/" ++ "completions")
        ∈ inferencePaths defaultSettings ∧
      Event.backendCall
          (defaultSettings.llama_server_url ++ "/v1/" ++ "completions")
        ∈ proxyFallbackEvents defaultSettings "completions" ∧
      Event.acquire ∉ proxyFallbackEvents defaultSettings "completions" ∧
      Event.release ∉ proxyFallbackEvents defaultSettings "completions" := by
  refine ⟨?_, ?_, ?_, ?_⟩ <;> decide

/-- C4 amended: the chat-completion operations (unary and streaming) do
acquire a permit before their backend contact and release it exactly once
on every outcome; but the generic `/v1/{path}` fallback route contacts the
backend with no permit at all, so requests to inference endpoints such as
`/v1/completions` can reach the backend ungated. -/
theorem C4_only_chat_routes_gated (st : Settings) (o : UnaryOutcome)
    (so : StreamOutcome) (path : String) :
    ((LlamaServerProxy.chatEvents st o).head? = some Event.acquire ∧
        (LlamaServerProxy.chatEvents st o).count Event.release = 1) ∧
      ((LlamaServerProxy.streamEvents st so).head? = some Event.acquire ∧
        (LlamaServerProxy.streamEvents st so).count Event.release = 1) ∧
      Event.acquire ∉ proxyFallbackEvents st path ∧
      Event.release ∉ proxyFallbackEvents st path := by
  have hrel : (∀ ch, Event.release ≠ Event.yieldChunk ch) := by
    intro ch hc
    cases hc
  refine ⟨⟨rfl, rfl⟩, ⟨rfl, ?_⟩, ?_, ?_⟩
  · show (Event.acquire ::
        Event.openStream (LlamaServerProxy.chatUrl st) ::
        (so.received.map Event.yieldChunk ++ [Event.release])).count
        Event.release = 1
    rw [List.count_cons, List.count_cons, List.count_append,
      count_yieldChunks_eq_zero so.received Event.release hrel]
    simp
  · simp [proxyFallbackEvents]
  · simp [proxyFallbackEvents]

/-- C5 counterexample: with the backend reachable but answering a body
that is not valid JSON, `health_check` does not return a status payload —
`response.json()` raises a `JSONDecodeError`, which the sole
`except httpx.RequestError` clause does not catch, so the exception
escapes to the caller. -/
theorem C5_counterexample :
    LlamaServerProxy.health_check (.resp 200 none) =
      .error PyErr.jsonDecodeError := rfl

/-- C5 amended: `health_check` returns a status payload on every network
failure (a degraded payload with status "error" rather than raising) and
on every backend reply whose body parses as JSON — whatever the HTTP
status; it throws only when the reply's body is not valid JSON. -/
theorem C5_health_check_amended (code : Nat) (j : Jval) (msg : String) :
    (∃ p, LlamaServerProxy.health_check (.resp code (some j)) = .ok p ∧
        p.getField "status" = some (.str "ok") ∧
        p.getField "llama_server" = some j) ∧
      (∃ p, LlamaServerProxy.health_check (.netError msg) = .ok p ∧
        p.getField "status" = some (.str "error") ∧
        p.getField "error" = some (.str msg)) :=
  ⟨⟨_, rfl, rfl, rfl⟩, ⟨_, rfl, rfl, rfl⟩⟩

/-- C6 counterexample: the backend is reachable but answers a body that is
not valid JSON; `list_models` does not return the backend's payload —
`response.json()` raises a `JSONDecodeError`, which the sole
`except httpx.RequestError` clause does not catch, so the exception
escapes instead of the payload being returned. -/
theorem C6_counterexample :
    LlamaServerProxy.list_models defaultSettings (.resp 200 none) =
      .error PyErr.jsonDecodeError := rfl

/-- C6 amended: `list_models` returns the backend's payload verbatim
whenever the backend is reachable and its body parses as JSON (on a
reachable backend with an unparseable body it raises instead), and on
every network failure it returns the fallback object whose `"data"` holds
exactly one synthetic entry whose `"id"` is the configured default model
name. -/
theorem C6_list_models (st : Settings) (status : Nat) (j : Jval)
    (msg : String) :
    LlamaServerProxy.list_models st (.resp status (some j)) = .ok j ∧
      LlamaServerProxy.list_models st (.netError msg) =
        .ok (LlamaServerProxy.modelsFallback st) ∧
      (LlamaServerProxy.modelsFallback st).getField "data" =
        some (.arr [LlamaServerProxy.modelEntry st]) ∧
      (LlamaServerProxy.modelEntry st).getField "id" =
        some (.str st.default_model) :=
  ⟨rfl, rfl, rfl, rfl⟩

/-- C7 counterexample: a request that explicitly sets `model` to the empty
string — a set value, surviving `exclude_none` — is nevertheless rewritten
to the configured default, because `not request_body.get("model")` is true
for the falsy empty string; its model value is not forwarded unchanged. -/
theorem C7_counterexample :
    forwardedModel defaultSettings (some "") = "gpt-oss-20b" ∧
      forwardedModel defaultSettings (some "") ≠ "" := by
  refine ⟨rfl, ?_⟩
  intro h
  exact absurd h (by decide)

/-- C7 amended: a request whose `model` is absent or set to the falsy
empty string gets the configured default filled in; any request with a
non-empty model string has that value forwarded unchanged. -/
theorem C7_default_model_fill (st : Settings) (s : String) (h : s ≠ "") :
    forwardedModel st none = st.default_model ∧
      forwardedModel st (some "") = st.default_model ∧
      forwardedModel st (some s) = s := by
  refine ⟨rfl, rfl, ?_⟩
  unfold forwardedModel modelIsFalsy
  simp [h]

/-- Witness for C7 at a concrete non-empty model name. -/
theorem C7_default_model_fill_witness :
    "llama-3" ≠ "" ∧
      (forwardedModel defaultSettings none = defaultSettings.default_model ∧
        forwardedModel defaultSettings (some "") =
          defaultSettings.default_model ∧
        forwardedModel defaultSettings (some "llama-3") = "llama-3") :=
  ⟨by decide, C7_default_model_fill defaultSettings "llama-3" (by decide)⟩

/-- The 502 detail string the gateway produces when the backend answers
500 with the body `\x7b"error":"oom"\x7d`. -/
def oomCaseDetail : String :=
  "Backend error: " ++ strOfErr (.httpStatusError 500
    "\x7b\"error\":\"oom\"\x7d" (LlamaServerProxy.chatUrl defaultSettings))

/-- C8 counterexample: the backend answers 500 with body containing
"oom"; the gateway does return a 502 whose detail carries the status code,
but the backend's response body appears nowhere in the detail — `str(e)`
of an `httpx.HTTPStatusError` does not include the body. -/
theorem C8_counterexample :
    chatCompletionsEndpoint defaultSettings
        (.httpError 500 "\x7b\"error\":\"oom\"\x7d") =
          .httpError 502 oomCaseDetail ∧
      strContains oomCaseDetail "500" = true ∧
      strContains oomCaseDetail "oom" = false := by
  refine ⟨rfl, ?_, ?_⟩ <;> decide

/-- C8 amended: every unary chat-completion failure — backend HTTP error
status or network error — is surfaced to the caller as a gateway error
with status 502 and detail `"Backend error: " ++ str(e)`; for the
backend-HTTP-error case `str(e)` carries the backend's status code (and
the request URL) but not the backend's response body. -/
theorem C8_backend_errors_become_502 (st : Settings) (code : Nat)
    (body msg : String) :
    chatCompletionsEndpoint st (.httpError code body) =
        .httpError 502 ("Backend error: " ++
          strOfErr (.httpStatusError code body
            (LlamaServerProxy.chatUrl st))) ∧
      chatCompletionsEndpoint st (.netError msg) =
        .httpError 502 ("Backend error: " ++ msg) :=
  ⟨rfl, rfl⟩

/-- C10: for every outcome the backend health check returns — the nested
ok payload when the backend answered with parseable JSON, and the nested
degraded payload when the network failed — the inbound `/health` endpoint's
payload has top-level `"status"` equal to `"ok"`, with the backend's own
result appearing only under the `"backend"` key. -/
theorem C10_health_always_ok (st : Settings) (code : Nat) (j : Jval)
    (msg : String) :
    (∃ p, healthEndpoint st (.resp code (some j)) = .ok p ∧
        p.getField "status" = some (.str "ok") ∧
        p.getField "backend" =
          some (.obj [("status", .str "ok"), ("llama_server", j)])) ∧
      (∃ p, healthEndpoint st (.netError msg) = .ok p ∧
        p.getField "status" = some (.str "ok") ∧
        p.getField "backend" =
          some (.obj [("status", .str "error"), ("error", .str msg)])) :=
  ⟨⟨_, rfl, rfl, rfl⟩, ⟨_, rfl, rfl, rfl⟩⟩
